import Mathlib

/-!
Verification development for the ECI condo loan calculator
(src/ECI_Calc.py). The financial core is embedded over ℚ: Python floats
become exact rationals, `round(x, 2)` becomes rounding of `100 * x` to the
nearest integer divided by 100, and the two fallible operations (the float
division in `calculate_annual_payment` and the profit-percentage division
in `main`) are made explicit in the result type.
-/

namespace ECI

/-- Models Python's `round(x, 2)`: round to the nearest multiple of 1/100. -/
def round2 (x : ℚ) : ℚ := ((round (100 * x) : ℤ) : ℚ) / 100

/-- Embeds `calculate_annual_payment` (src/ECI_Calc.py lines 72-79).
The annuity formula `loan_amount * (annual_rate * (1+annual_rate)^years) /
((1+annual_rate)^years - 1)`; Python raises ZeroDivisionError when the
denominator is zero, modelled as `none`. -/
def calculate_annual_payment (loan_amount annual_rate : ℚ) (years : ℕ) : Option ℚ :=
  let denom := (1 + annual_rate) ^ years - 1
  if denom = 0 then none
  else some (loan_amount * (annual_rate * (1 + annual_rate) ^ years) / denom)

/-- One row of the amortization schedule, as appended by
`generate_loan_schedule` (src/ECI_Calc.py lines 92-98): every numeric
field is stored rounded to 2 decimal places. -/
structure ScheduleRow where
  year : ℕ
  payment : ℚ
  interest : ℚ
  principal : ℚ
  remainingBalance : ℚ
deriving DecidableEq

/-- The loop body of `generate_loan_schedule`: `k` iterations remain,
`year` is the current year, `bal` the (unrounded) remaining balance. -/
def scheduleAux (annual_rate annual_payment : ℚ) : ℕ → ℕ → ℚ → List ScheduleRow
  | 0, _, _ => []
  | k + 1, year, bal =>
    let interest := bal * annual_rate
    let principal := annual_payment - interest
    let bal2 := bal - principal
    { year := year
      payment := round2 annual_payment
      interest := round2 interest
      principal := round2 principal
      remainingBalance := round2 bal2 } :: scheduleAux annual_rate annual_payment k (year + 1) bal2

/-- Embeds `generate_loan_schedule` (src/ECI_Calc.py lines 81-99):
`for year in range(1, years + 1)` starting from `remaining_balance =
loan_amount`. -/
def generate_loan_schedule (loan_amount annual_rate annual_payment : ℚ) (years : ℕ) :
    List ScheduleRow :=
  scheduleAux annual_rate annual_payment years 1 loan_amount

/-- The quantities computed in the accepted branch of `main`
(src/ECI_Calc.py lines 212-277). -/
structure AcceptedDeal where
  downPayment : ℚ
  loanAmount : ℚ
  annualPayment : ℚ
  schedule : List ScheduleRow
  totalPayments : ℚ
  profit : ℚ
  profitPercentage : ℚ
  finalBtcValue : ℚ
  finalCondoValue : ℚ
  totalNetBenefit : ℚ
  netBenefitSeries : List ℚ
deriving DecidableEq

/-- Outcome of one evaluation in `main`: the price guard at line 199, the
rejected branch at lines 278-282 (carrying `max_condo_cost` and
`condo_price`), a Python ZeroDivisionError, or the accepted branch. -/
inductive EvalResult where
  | priceUnavailable
  | rejected (maxAllowed condoPrice : ℚ)
  | divisionByZero
  | accepted (deal : AcceptedDeal)
deriving DecidableEq

def EvalResult.isRejected : EvalResult → Bool
  | .rejected _ _ => true
  | _ => false

def EvalResult.downPayment? : EvalResult → Option ℚ
  | .accepted d => some d.downPayment
  | _ => none

def EvalResult.loanAmount? : EvalResult → Option ℚ
  | .accepted d => some d.loanAmount
  | _ => none

def EvalResult.annualPayment? : EvalResult → Option ℚ
  | .accepted d => some d.annualPayment
  | _ => none

def EvalResult.schedule? : EvalResult → Option (List ScheduleRow)
  | .accepted d => some d.schedule
  | _ => none

def EvalResult.netBenefitSeries? : EvalResult → Option (List ℚ)
  | .accepted d => some d.netBenefitSeries
  | _ => none

def EvalResult.finalBtcValue? : EvalResult → Option ℚ
  | .accepted d => some d.finalBtcValue
  | _ => none

def EvalResult.finalCondoValue? : EvalResult → Option ℚ
  | .accepted d => some d.finalCondoValue
  | _ => none

/-- Embeds the computational core of `main` (src/ECI_Calc.py lines
194-282). The fetched BTC price is passed in as `Option ℚ`; the guard
`if not btc_price` at line 199 fires exactly on `None` and `0.0`. In the
accepted branch the constants are hardcoded as in the source:
`DP = 0.25 * condo_price`, `L = 0.75 * condo_price`,
`annual_interest_rate = 0.10`, `loan_term_years = 4`, `CAGR = 0.281`,
condo appreciation `0.04`. The division `profit / condo_price` at line
253 raises ZeroDivisionError when `condo_price` is zero. -/
def main (btc_amount : ℚ) (btc_price : Option ℚ) (condo_price : ℚ) : EvalResult :=
  match btc_price with
  | none => .priceUnavailable
  | some price =>
    if price = 0 then .priceUnavailable
    else
      let V0 := btc_amount * price
      let max_condo_cost := 0.25 * V0
      if condo_price ≤ max_condo_cost then
        let DP := 0.25 * condo_price
        let L := 0.75 * condo_price
        match calculate_annual_payment L 0.10 4 with
        | none => .divisionByZero
        | some a0 =>
          let A := round2 a0
          let schedule := generate_loan_schedule L 0.10 A 4
          let total_payments := DP + A * 4
          let profit := total_payments - condo_price
          if condo_price = 0 then .divisionByZero
          else
            let profit_percentage := round2 (profit / condo_price * 100)
            let final_btc_value := V0 * (1 + 0.281) ^ (4 : ℕ)
            let final_condo_value := condo_price * (1 + 0.04) ^ (4 : ℕ)
            let years := List.range 5
            let btc_values := years.map fun y => V0 * (1 + 0.281) ^ y
            let condo_values := years.map fun y => condo_price * (1 + 0.04) ^ y
            let net_benefit := List.zipWith (· + ·) btc_values condo_values
            .accepted
              { downPayment := DP
                loanAmount := L
                annualPayment := A
                schedule := schedule
                totalPayments := total_payments
                profit := profit
                profitPercentage := profit_percentage
                finalBtcValue := final_btc_value
                finalCondoValue := final_condo_value
                totalNetBenefit := final_btc_value + final_condo_value
                netBenefitSeries := net_benefit }
      else .rejected max_condo_cost condo_price

/-- The annual payment `A` as `main` computes it at line 224 (annuity
formula at the hardcoded rate 0.10 and term 4, rounded to 2 decimals),
as a function of the condo price. -/
def acceptedPayment (condo_price : ℚ) : ℚ :=
  round2 (0.75 * condo_price * (0.10 * (1 + 0.10) ^ (4 : ℕ)) / ((1 + 0.10) ^ (4 : ℕ) - 1))

/-- One step of the exact (unrounded) balance recurrence of the schedule
loop: `bal - (annual_payment - bal * annual_rate)`. -/
def stepBal (annual_rate annual_payment bal : ℚ) : ℚ :=
  bal - (annual_payment - bal * annual_rate)

/-- The exact remaining balance after `k` iterations of the schedule
loop, starting from `bal`. -/
def iterBal (annual_rate annual_payment bal : ℚ) : ℕ → ℚ
  | 0 => bal
  | k + 1 => stepBal annual_rate annual_payment (iterBal annual_rate annual_payment bal k)

/-- The row the loop of `generate_loan_schedule` appends in iteration `i`
(0-based): the exact recurrence values through year `i`, each stored
field rounded to 2 decimal places. -/
def rowAt (annual_rate annual_payment loan_amount : ℚ) (i : ℕ) : ScheduleRow :=
  { year := i + 1
    payment := round2 annual_payment
    interest := round2 (iterBal annual_rate annual_payment loan_amount i * annual_rate)
    principal := round2 (annual_payment - iterBal annual_rate annual_payment loan_amount i * annual_rate)
    remainingBalance := round2 (stepBal annual_rate annual_payment (iterBal annual_rate annual_payment loan_amount i)) }

/-- The property claim C3 asserts of the stored schedule rows, following
the spec's words: chained through the rows starting from `bal`, each
row's stored fields satisfy the exact (unrounded) recurrence
`interest = bal * rate`, `principal = payment - interest`,
`new balance = bal - principal`. -/
def rowsExactFrom (annual_rate annual_payment : ℚ) : ℚ → List ScheduleRow → Prop
  | _, [] => True
  | bal, row :: rest =>
    row.interest = bal * annual_rate
      ∧ row.principal = annual_payment - row.interest
      ∧ row.remainingBalance = bal - row.principal
      ∧ rowsExactFrom annual_rate annual_payment row.remainingBalance rest

lemma annuity_some (L : ℚ) :
    calculate_annual_payment L 0.10 4
      = some (L * (0.10 * (1 + 0.10) ^ (4 : ℕ)) / ((1 + 0.10) ^ (4 : ℕ) - 1)) := by
  unfold calculate_annual_payment
  norm_num

lemma main_accepted_eq (a p c : ℚ) (hp : p ≠ 0) (hc0 : c ≠ 0) (hc : c ≤ 0.25 * (a * p)) :
    main a (some p) c = .accepted
      { downPayment := 0.25 * c
        loanAmount := 0.75 * c
        annualPayment := acceptedPayment c
        schedule := generate_loan_schedule (0.75 * c) 0.10 (acceptedPayment c) 4
        totalPayments := 0.25 * c + acceptedPayment c * 4
        profit := 0.25 * c + acceptedPayment c * 4 - c
        profitPercentage := round2 ((0.25 * c + acceptedPayment c * 4 - c) / c * 100)
        finalBtcValue := a * p * (1 + 0.281) ^ (4 : ℕ)
        finalCondoValue := c * (1 + 0.04) ^ (4 : ℕ)
        totalNetBenefit := a * p * (1 + 0.281) ^ (4 : ℕ) + c * (1 + 0.04) ^ (4 : ℕ)
        netBenefitSeries := List.zipWith (· + ·)
          ((List.range 5).map fun y => a * p * (1 + 0.281) ^ y)
          ((List.range 5).map fun y => c * (1 + 0.04) ^ y) } := by
  unfold main
  dsimp only
  rw [if_neg hp, if_pos hc, annuity_some]
  dsimp only
  rw [if_neg hc0]
  rfl

lemma main_rejected_eq (a p c : ℚ) (hp : p ≠ 0) (hc : 0.25 * (a * p) < c) :
    main a (some p) c = .rejected (0.25 * (a * p)) c := by
  unfold main
  dsimp only
  rw [if_neg hp, if_neg (not_le.mpr hc)]

lemma main_zero_condo_eq (a p : ℚ) (hp : p ≠ 0) (hc : (0 : ℚ) ≤ 0.25 * (a * p)) :
    main a (some p) 0 = .divisionByZero := by
  unfold main
  dsimp only
  rw [if_neg hp, if_pos hc, annuity_some]
  dsimp only
  rw [if_pos rfl]

lemma abs_round2_sub_le (x : ℚ) : |round2 x - x| ≤ 1 / 200 := by
  unfold round2
  have h := abs_sub_round (100 * x)
  rw [abs_sub_comm] at h
  have h2 : ((round (100 * x) : ℤ) : ℚ) / 100 - x = ((round (100 * x) : ℤ) - 100 * x) / 100 := by
    ring
  rw [h2, abs_div]
  rw [show |(100 : ℚ)| = 100 by norm_num]
  linarith

lemma round2_idem (x : ℚ) : round2 (round2 x) = round2 x := by
  unfold round2
  rw [show (100 : ℚ) * (((round (100 * x) : ℤ) : ℚ) / 100) = ((round (100 * x) : ℤ) : ℚ) by ring]
  rw [round_intCast]

lemma iterBal_stepBal (r A b : ℚ) (k : ℕ) :
    iterBal r A (stepBal r A b) k = stepBal r A (iterBal r A b k) := by
  induction k with
  | zero => rfl
  | succ k ih => simp [iterBal, ih]

lemma scheduleAux_eq (r A : ℚ) (k : ℕ) :
    ∀ (year : ℕ) (bal : ℚ),
      scheduleAux r A k year bal = (List.range k).map fun i =>
        { year := year + i
          payment := round2 A
          interest := round2 (iterBal r A bal i * r)
          principal := round2 (A - iterBal r A bal i * r)
          remainingBalance := round2 (stepBal r A (iterBal r A bal i)) } := by
  induction k with
  | zero => intro year bal; rfl
  | succ k ih =>
    intro year bal
    rw [List.range_succ_eq_map, List.map_cons, List.map_map]
    rw [scheduleAux]
    rw [show A - bal * r = A - iterBal r A bal 0 * r by rfl]
    rw [show bal - (A - iterBal r A bal 0 * r) = stepBal r A (iterBal r A bal 0) from rfl]
    rw [ih (year + 1) (stepBal r A (iterBal r A bal 0))]
    refine congrArg₂ _ ?_ ?_
    · simp [iterBal]
    · apply List.map_congr_left
      intro i _
      simp only [Function.comp]
      rw [iterBal_stepBal]
      rw [show year + 1 + i = year + i.succ by omega]
      rfl

lemma main_isRejected_false_iff (a p c : ℚ) (hp : p ≠ 0) :
    (main a (some p) c).isRejected = false ↔ c ≤ 0.25 * (a * p) := by
  by_cases hc : c ≤ 0.25 * (a * p)
  · simp only [hc, iff_true]
    by_cases hc0 : c = 0
    · subst hc0
      rw [main_zero_condo_eq a p hp hc]
      rfl
    · rw [main_accepted_eq a p c hp hc0 hc]
      rfl
  · simp only [hc, iff_false]
    rw [main_rejected_eq a p c hp (not_le.mp hc)]
    simp [EvalResult.isRejected]

lemma principal_sum_close (L A : ℚ) (hd : |A - L * (14641 / 46410)| ≤ 1 / 200) :
    |((generate_loan_schedule L 0.10 A 4).map ScheduleRow.principal).sum - L| ≤ 1 / 10 := by
  unfold generate_loan_schedule
  rw [scheduleAux_eq]
  rw [show List.range 4 = [0, 1, 2, 3] from rfl]
  simp only [List.map_cons, List.map_nil, List.sum_cons, List.sum_nil, add_zero]
  have hb0 : iterBal 0.10 A L 0 = L := rfl
  have hb1 : iterBal 0.10 A L 1 = 1.1 * L - A := by
    simp only [iterBal, stepBal]
    ring
  have hb2 : iterBal 0.10 A L 2 = 1.21 * L - 2.1 * A := by
    simp only [iterBal, stepBal]
    ring
  have hb3 : iterBal 0.10 A L 3 = 1.331 * L - 3.31 * A := by
    simp only [iterBal, stepBal]
    ring
  rw [hb0, hb1, hb2, hb3]
  have h1 := abs_round2_sub_le (A - L * 0.10)
  have h2 := abs_round2_sub_le (A - (1.1 * L - A) * 0.10)
  have h3 := abs_round2_sub_le (A - (1.21 * L - 2.1 * A) * 0.10)
  have h4 := abs_round2_sub_le (A - (1.331 * L - 3.31 * A) * 0.10)
  rw [abs_le] at h1 h2 h3 h4 hd ⊢
  constructor <;> linarith [h1.1, h1.2, h2.1, h2.2, h3.1, h3.2, h4.1, h4.2, hd.1, hd.2]

/-- Claim C1: with a usable price, the deal is accepted if and only if
`condo_price ≤ 0.25 * (btc_amount * btc_unit_price)`; the boundary point
itself is accepted, and any condo price strictly above it is rejected. -/
theorem c1_decision_boundary (a p c : ℚ) (hp : p ≠ 0) :
    ((main a (some p) c).isRejected = false ↔ c ≤ 0.25 * (a * p))
      ∧ (main a (some p) (0.25 * (a * p))).isRejected = false
      ∧ (0.25 * (a * p) < c → (main a (some p) c).isRejected = true) := by
  refine ⟨main_isRejected_false_iff a p c hp,
    (main_isRejected_false_iff a p _ hp).mpr le_rfl, fun hlt => ?_⟩
  cases h : (main a (some p) c).isRejected with
  | false => exact absurd ((main_isRejected_false_iff a p c hp).mp h) (not_le.mpr hlt)
  | true => rfl

theorem c1_witness :
    (main 50 (some 20000) 250000).isRejected = false
      ∧ (main 50 (some 20000) 250001).isRejected = true := by
  constructor
  · exact ((c1_decision_boundary 50 20000 250000 (by norm_num)).1).mpr (by norm_num)
  · exact (c1_decision_boundary 50 20000 250001 (by norm_num)).2.2 (by norm_num)

/-- Claim C2: for an accepted deal the annual payment is the annuity
formula value rounded to 2 decimals, and that rounded payment is the one
passed to (and stored by) the year-by-year schedule computation. -/
theorem c2_payment_rounded_used (a p c : ℚ) (hp : p ≠ 0) (hc0 : c ≠ 0)
    (hc : c ≤ 0.25 * (a * p)) :
    calculate_annual_payment (0.75 * c) 0.10 4
        = some (0.75 * c * (0.10 * (1 + 0.10) ^ (4 : ℕ)) / ((1 + 0.10) ^ (4 : ℕ) - 1))
      ∧ (main a (some p) c).annualPayment?
          = some (round2 (0.75 * c * (0.10 * (1 + 0.10) ^ (4 : ℕ)) / ((1 + 0.10) ^ (4 : ℕ) - 1)))
      ∧ (main a (some p) c).schedule?
          = some (generate_loan_schedule (0.75 * c) 0.10
              (round2 (0.75 * c * (0.10 * (1 + 0.10) ^ (4 : ℕ)) / ((1 + 0.10) ^ (4 : ℕ) - 1))) 4)
      ∧ ∀ row ∈ generate_loan_schedule (0.75 * c) 0.10
            (round2 (0.75 * c * (0.10 * (1 + 0.10) ^ (4 : ℕ)) / ((1 + 0.10) ^ (4 : ℕ) - 1))) 4,
          ScheduleRow.payment row
            = round2 (0.75 * c * (0.10 * (1 + 0.10) ^ (4 : ℕ)) / ((1 + 0.10) ^ (4 : ℕ) - 1)) := by
  have hm := main_accepted_eq a p c hp hc0 hc
  refine ⟨annuity_some _, by rw [hm]; rfl, by rw [hm]; rfl, ?_⟩
  intro row hrow
  unfold generate_loan_schedule at hrow
  rw [scheduleAux_eq] at hrow
  simp only [List.mem_map, List.mem_range] at hrow
  obtain ⟨i, _, rfl⟩ := hrow
  exact round2_idem _

theorem c2_witness :
    (main 50 (some 20000) 200000).annualPayment?
      = some (round2 (0.75 * 200000 * (0.10 * (1 + 0.10) ^ (4 : ℕ))
          / ((1 + 0.10) ^ (4 : ℕ) - 1))) :=
  (c2_payment_rounded_used 50 20000 200000 (by norm_num) (by norm_num) (by norm_num)).2.1

/-- Claim C3 (amended): the schedule is one row per year in increasing
order (row `i`, 0-based, carries year `i + 1`), and row `i` stores the
exact-recurrence quantities rounded to 2 decimal places, the unrounded
balance being carried between years starting from `loan_amount`. -/
theorem c3_schedule_rows_rounded (loan_amount annual_rate annual_payment : ℚ) (years : ℕ) :
    generate_loan_schedule loan_amount annual_rate annual_payment years
      = (List.range years).map (rowAt annual_rate annual_payment loan_amount) := by
  unfold generate_loan_schedule rowAt
  rw [scheduleAux_eq]
  apply List.map_congr_left
  intro i _
  rw [show 1 + i = i + 1 by omega]

/-- Claim C3, counterexample to the literal statement: in the accepted
deal with `btc_amount = 50`, `btc_price = 20000`, `condo_price = 200000`
(annual payment 47320.62) the stored rows do not satisfy the exact
recurrence: row 2 stores interest 11767.94, but the year-1 balance
117679.38 times the rate 0.10 is 11767.938. -/
theorem c3_counterexample_exact_recurrence :
    ¬ rowsExactFrom 0.10 (2366031 / 50) 150000
        (generate_loan_schedule 150000 0.10 (2366031 / 50) 4)
      ∧ (main 50 (some 20000) 200000).schedule?
          = some (generate_loan_schedule 150000 0.10 (2366031 / 50) 4)
      ∧ (2366031 : ℚ) / 50
          = round2 (0.75 * 200000 * (0.10 * (1 + 0.10) ^ (4 : ℕ))
              / ((1 + 0.10) ^ (4 : ℕ) - 1)) := by
  have hA : acceptedPayment 200000 = 2366031 / 50 := by
    norm_num [acceptedPayment, round2, round_eq]
  have hsched : generate_loan_schedule 150000 0.10 (2366031 / 50) 4
      = [⟨1, 2366031/50, 15000, 1616031/50, 5883969/50⟩,
         ⟨2, 2366031/50, 588397/50, 888817/25, 821267/10⟩,
         ⟨3, 2366031/50, 821267/100, 782159/20, 172075/4⟩,
         ⟨4, 2366031/50, 430187/100, 172075/4, 0⟩] := by
    norm_num [generate_loan_schedule, scheduleAux, round2, round_eq]
  refine ⟨?_, ?_, ?_⟩
  · rw [hsched]
    simp only [rowsExactFrom]
    rintro ⟨-, -, -, hi2, -⟩
    norm_num at hi2
  · rw [main_accepted_eq 50 20000 200000 (by norm_num) (by norm_num) (by norm_num)]
    show some _ = _
    rw [hA, show (0.75 * 200000 : ℚ) = 150000 by norm_num]
  · rw [← hA]
    unfold acceptedPayment
    norm_num

/-- Claim C4: the source does not special-case `annual_rate = 0`; there
the annuity denominator `(1+0)^years - 1` is zero, so
`calculate_annual_payment` raises ZeroDivisionError (modelled `none`)
instead of returning the intended `loan_amount / years = 25000`. -/
theorem c4_zero_rate_division_by_zero :
    calculate_annual_payment 100000 0 4 = none
      ∧ (1 + (0 : ℚ)) ^ (4 : ℕ) - 1 = 0
      ∧ (100000 : ℚ) / 4 = 25000 := by
  refine ⟨?_, by norm_num, by norm_num⟩
  unfold calculate_annual_payment
  norm_num

/-- Claim C5 (amended): the guard `if not btc_price` stops the
evaluation exactly when the price is absent (`None`) or zero, reporting
a price-unavailable outcome; any nonzero price, including a negative
one, proceeds past the guard. -/
theorem c5_price_guard_amended :
    (∀ a c : ℚ, main a none c = .priceUnavailable)
      ∧ (∀ a c : ℚ, main a (some 0) c = .priceUnavailable)
      ∧ ∀ a p c : ℚ, p ≠ 0 → main a (some p) c ≠ .priceUnavailable := by
  refine ⟨fun a c => rfl, fun a c => ?_, fun a p c hp => ?_⟩
  · unfold main
    dsimp only
    rw [if_pos rfl]
  · by_cases hc : c ≤ 0.25 * (a * p)
    · by_cases hc0 : c = 0
      · subst hc0
        rw [main_zero_condo_eq a p hp hc]
        exact fun h => EvalResult.noConfusion h
      · rw [main_accepted_eq a p c hp hc0 hc]
        exact fun h => EvalResult.noConfusion h
    · rw [main_rejected_eq a p c hp (not_le.mp hc)]
      exact fun h => EvalResult.noConfusion h

theorem c5_witness :
    main 1 none 1 = EvalResult.priceUnavailable
      ∧ main 1 (some 0) 1 = EvalResult.priceUnavailable
      ∧ main 1 (some (-1)) 1 ≠ EvalResult.priceUnavailable :=
  ⟨c5_price_guard_amended.1 1 1, c5_price_guard_amended.2.1 1 1,
    c5_price_guard_amended.2.2 1 (-1) 1 (by norm_num)⟩

/-- Claim C5, counterexample to the literal statement: a negative price
is not caught by the guard (Python's `not btc_price` is false for
`-1.0`), so the evaluation proceeds and reports a rejection, not a
price-unavailable outcome. -/
theorem c5_counterexample_negative_price :
    main 1 (some (-1)) 1 = .rejected (-0.25) 1
      ∧ main 1 (some (-1)) 1 ≠ .priceUnavailable := by
  have h := main_rejected_eq 1 (-1) 1 (by norm_num) (by norm_num)
  constructor
  · rw [h, show (0.25 * (1 * -1) : ℚ) = -0.25 by norm_num]
  · rw [h]
    exact fun hcontra => EvalResult.noConfusion hcontra

/-- Claim C6: for an accepted deal the stored `principal` entries of the
schedule sum to the loan amount `0.75 * condo_price` up to a tolerance
(at most 10 cents) caused by the payment and the stored fields being
rounded to cents. -/
theorem c6_principal_sum_near_loan (a p c : ℚ) (hp : p ≠ 0) (hc0 : c ≠ 0)
    (hc : c ≤ 0.25 * (a * p)) :
    ∃ s, (main a (some p) c).schedule? = some s
      ∧ |(s.map ScheduleRow.principal).sum - 0.75 * c| ≤ 1 / 10 := by
  have hm := main_accepted_eq a p c hp hc0 hc
  have hv : 0.75 * c * (0.10 * (1 + 0.10) ^ (4 : ℕ)) / ((1 + 0.10) ^ (4 : ℕ) - 1)
      = 0.75 * c * (14641 / 46410) := by
    rw [div_eq_iff (by norm_num : ((1 + 0.10 : ℚ)) ^ (4 : ℕ) - 1 ≠ 0)]
    norm_num
    ring
  have hd : |acceptedPayment c - 0.75 * c * (14641 / 46410)| ≤ 1 / 200 := by
    unfold acceptedPayment
    rw [hv]
    exact abs_round2_sub_le _
  exact ⟨_, by rw [hm]; rfl, principal_sum_close (0.75 * c) (acceptedPayment c) hd⟩

theorem c6_witness :
    ∃ s, (main 50 (some 20000) 200000).schedule? = some s
      ∧ |(s.map ScheduleRow.principal).sum - 0.75 * 200000| ≤ 1 / 10 :=
  c6_principal_sum_near_loan 50 20000 200000 (by norm_num) (by norm_num) (by norm_num)

/-- Claim C7: in an accepted deal the down payment is a quarter of the
condo price, the loan amount is three quarters of it, and they sum to
the condo price exactly. -/
theorem c7_split_sums_to_price (a p c : ℚ) (hp : p ≠ 0) (hc0 : c ≠ 0)
    (hc : c ≤ 0.25 * (a * p)) :
    (main a (some p) c).downPayment? = some (0.25 * c)
      ∧ (main a (some p) c).loanAmount? = some (0.75 * c)
      ∧ 0.25 * c + 0.75 * c = c := by
  have hm := main_accepted_eq a p c hp hc0 hc
  exact ⟨by rw [hm]; rfl, by rw [hm]; rfl, by ring⟩

theorem c7_witness :
    (main 50 (some 20000) 200000).downPayment? = some (0.25 * 200000)
      ∧ (main 50 (some 20000) 200000).loanAmount? = some (0.75 * 200000)
      ∧ (0.25 : ℚ) * 200000 + 0.75 * 200000 = 200000 :=
  c7_split_sums_to_price 50 20000 200000 (by norm_num) (by norm_num) (by norm_num)

/-- Claim C8: a rejected deal returns exactly the computed threshold
`0.25 * (btc_amount * price)` and the submitted condo price, and none of
the loan-structuring, schedule or projection fields are present. -/
theorem c8_rejected_carries_threshold (a p c : ℚ) (hp : p ≠ 0)
    (hc : 0.25 * (a * p) < c) :
    main a (some p) c = .rejected (0.25 * (a * p)) c
      ∧ (main a (some p) c).schedule? = none
      ∧ (main a (some p) c).annualPayment? = none
      ∧ (main a (some p) c).downPayment? = none
      ∧ (main a (some p) c).netBenefitSeries? = none := by
  have h := main_rejected_eq a p c hp hc
  refine ⟨h, ?_, ?_, ?_, ?_⟩ <;> rw [h] <;> rfl

theorem c8_witness :
    main 50 (some 20000) 300000 = EvalResult.rejected (0.25 * (50 * 20000)) 300000
      ∧ (main 50 (some 20000) 300000).schedule? = none :=
  ⟨(c8_rejected_carries_threshold 50 20000 300000 (by norm_num) (by norm_num)).1,
    (c8_rejected_carries_threshold 50 20000 300000 (by norm_num) (by norm_num)).2.1⟩

/-- Claim C9: for an accepted deal the net-benefit series has one entry
per year 0..4, entry `y` being `V0 * (1 + 0.281)^y + condo_price *
(1 + 0.04)^y` with `V0 = btc_amount * price`; entry 0 is `V0 +
condo_price`, and the final btc/condo values are the year-4 terms. -/
theorem c9_net_benefit_series (a p c : ℚ) (hp : p ≠ 0) (hc0 : c ≠ 0)
    (hc : c ≤ 0.25 * (a * p)) :
    ∃ l : List ℚ,
      (main a (some p) c).netBenefitSeries? = some l
        ∧ l.length = 5
        ∧ (∀ y, y < 5 → l.get? y = some (a * p * (1 + 0.281) ^ y + c * (1 + 0.04) ^ y))
        ∧ l.get? 0 = some (a * p + c)
        ∧ (main a (some p) c).finalBtcValue? = some (a * p * (1 + 0.281) ^ (4 : ℕ))
        ∧ (main a (some p) c).finalCondoValue? = some (c * (1 + 0.04) ^ (4 : ℕ))
        ∧ l.get? 4 = some (a * p * (1 + 0.281) ^ (4 : ℕ) + c * (1 + 0.04) ^ (4 : ℕ)) := by
  have hm := main_accepted_eq a p c hp hc0 hc
  have hrange : List.range 5 = [0, 1, 2, 3, 4] := rfl
  refine ⟨List.zipWith (· + ·) ((List.range 5).map fun y => a * p * (1 + 0.281) ^ y)
      ((List.range 5).map fun y => c * (1 + 0.04) ^ y),
    by rw [hm]; rfl, ?_, ?_, ?_, by rw [hm]; rfl, by rw [hm]; rfl, ?_⟩
  · rw [hrange]
    rfl
  · intro y hy
    interval_cases y <;> (rw [hrange]; rfl)
  · rw [hrange]
    show some (a * p * (1 + 0.281) ^ (0 : ℕ) + c * (1 + 0.04) ^ (0 : ℕ)) = some (a * p + c)
    norm_num
  · rw [hrange]
    rfl

theorem c9_witness :
    ∃ l : List ℚ,
      (main 50 (some 20000) 200000).netBenefitSeries? = some l
        ∧ l.length = 5
        ∧ (∀ y, y < 5 → l.get? y
            = some (50 * 20000 * (1 + 0.281) ^ y + 200000 * (1 + 0.04) ^ y))
        ∧ l.get? 0 = some (50 * 20000 + 200000)
        ∧ (main 50 (some 20000) 200000).finalBtcValue?
            = some (50 * 20000 * (1 + 0.281) ^ (4 : ℕ))
        ∧ (main 50 (some 20000) 200000).finalCondoValue?
            = some (200000 * (1 + 0.04) ^ (4 : ℕ))
        ∧ l.get? 4 = some (50 * 20000 * (1 + 0.281) ^ (4 : ℕ)
            + 200000 * (1 + 0.04) ^ (4 : ℕ)) :=
  c9_net_benefit_series 50 20000 200000 (by norm_num) (by norm_num) (by norm_num)

/-- Claim C10: with nonnegative holdings and a positive price, a condo
price of zero passes the constraint check (`0 ≤ max_allowed`), but the
profit-percentage division `profit / condo_price` then divides by zero,
so the evaluation raises instead of producing a result. -/
theorem c10_zero_condo_division (a p : ℚ) (ha : 0 ≤ a) (hp : 0 < p) :
    (0 : ℚ) ≤ 0.25 * (a * p) ∧ main a (some p) 0 = .divisionByZero := by
  have hmax : (0 : ℚ) ≤ 0.25 * (a * p) := by
    have := mul_nonneg ha hp.le
    linarith
  exact ⟨hmax, main_zero_condo_eq a p hp.ne' hmax⟩

theorem c10_witness :
    (0 : ℚ) ≤ 0.25 * (50 * 20000) ∧ main 50 (some 20000) 0 = .divisionByZero :=
  c10_zero_condo_division 50 20000 (by norm_num) (by norm_num)

end ECI
